import Mathlib

/-!
Verification of the EduMind student-dashboard calendar widget
(src/frontend/pages/student_dashboard/calendar.js).

The JavaScript source is shallowly embedded as executable Lean
definitions:

* Loosely-typed JavaScript field values are modelled by the type JSVal
  (undefined, null, strings, and the nested start object); JavaScript
  truthiness and the short-circuiting OR of the source are modelled by
  JSVal.truthy and jsOr.
* Instants are modelled as integers (seconds since the Unix epoch, UTC);
  calendar dates are modelled as integer day numbers (days since
  1970-01-01) converted to and from civil (year, month, day) triples by
  the standard civil-calendar algorithms, which agree with the
  ECMAScript day-number arithmetic (MakeDay) that the source relies on
  through the Date setters; 1970-01-01 was a Thursday, so the weekday of
  day number d is (d + 4) mod 7, matching Date.prototype.getDay.
* The viewer's time zone is an explicit parameter tz, the number of
  minutes that must be added to UTC to obtain local time.  Date
  construction from local components (new Date(y, m, d)) and UTC
  formatting (toISOString) are modelled through localMidnight and
  utcDayOf.
* The engine's Date string parser is modelled for the ISO-8601 forms the
  payloads use (YYYY-MM-DD, parsed as UTC midnight, and
  YYYY-MM-DDTHH:MM[:SS][Z], parsed as local time without the Z suffix
  and as UTC with it); every other string is treated as unparseable,
  and new Date(object) is Invalid (ToPrimitive yields the string
  "[object Object]", which no date grammar accepts).
* The asynchronous fetches are modelled by passing the network outcome
  (the response) as an explicit argument to the state-transition
  functions; DOM reads and writes are outside the model.
-/

/-- A loosely-typed JavaScript field value, restricted to the shapes the
calendar payloads use: undefined (also modelling an absent field), null,
strings, and the nested start object with its dateTime and date members. -/
inductive JSVal where
  | undefined : JSVal
  | nul : JSVal
  | str : String → JSVal
  | startObj : JSVal → JSVal → JSVal
deriving Repr, DecidableEq

/-- JavaScript truthiness for the modelled values: undefined and null are
falsy, a string is truthy exactly when it is non-empty, and an object is
always truthy. -/
def JSVal.truthy : JSVal → Bool
  | .undefined => false
  | .nul => false
  | .str s => s != ""
  | .startObj _ _ => true

/-- The short-circuiting OR of JavaScript: a || b yields a when a is
truthy and b otherwise. -/
def jsOr (a b : JSVal) : JSVal :=
  if a.truthy then a else b

/-- Optional-chaining access v?.dateTime: the dateTime member of the
start object; undefined on every other value. -/
def JSVal.dtMember : JSVal → JSVal
  | .startObj dt _ => dt
  | _ => .undefined

/-- Optional-chaining access v?.date: the date member of the start
object; undefined on every other value. -/
def JSVal.dateMember : JSVal → JSVal
  | .startObj _ d => d
  | _ => .undefined

/-- String coercion of a JavaScript value, as performed by template
interpolation and by ToPrimitive inside the Date constructor. -/
def jsToString : JSVal → String
  | .undefined => "undefined"
  | .nul => "null"
  | .str s => s
  | .startObj _ _ => "[object Object]"

/-- An event record as received from the fetch collaborator
(RawEvent in the specification).  Each field the source ever reads is a
JSVal, with undefined modelling an absent field.  The fields link and
startInstant exist so that records shaped like the canonical
NormalizedEvent can be fed back to the accessors; no accessor of the
source reads them. -/
structure RawEvent where
  summary : JSVal := .undefined
  title : JSVal := .undefined
  htmlLink : JSVal := .undefined
  html_link : JSVal := .undefined
  start_datetime : JSVal := .undefined
  start : JSVal := .undefined
  start_time : JSVal := .undefined
  location : JSVal := .undefined
  description : JSVal := .undefined
  link : JSVal := .undefined
  startInstant : Option Int := none
deriving Repr, DecidableEq

/-- getEventTitle of the source:
event?.summary || event?.title || 'No Title'. -/
def getEventTitle (e : RawEvent) : JSVal :=
  jsOr e.summary (jsOr e.title (.str "No Title"))

/-- getEventHtmlLink of the source:
event?.htmlLink || event?.html_link || ''. -/
def getEventHtmlLink (e : RawEvent) : JSVal :=
  jsOr e.htmlLink (jsOr e.html_link (.str ""))

/-- getEventStartString of the source:
event?.start_datetime || event?.start || event?.start?.dateTime ||
event?.start?.date || null. -/
def getEventStartString (e : RawEvent) : JSVal :=
  jsOr e.start_datetime
    (jsOr e.start
      (jsOr e.start.dtMember
        (jsOr e.start.dateMember .nul)))

/-- Gregorian leap-year test. -/
def isLeap (y : Int) : Bool :=
  (Int.emod y 4 == 0 && Int.emod y 100 != 0) || Int.emod y 400 == 0

/-- Number of days of month m (1..12) of year y. -/
def daysInMonth (y m : Int) : Int :=
  if m == 2 then (if isLeap y then 29 else 28)
  else if m == 4 || m == 6 || m == 9 || m == 11 then 30
  else 31

/-- Day number (days since 1970-01-01) of the civil date (y, m, d) with m
in 1..12; linear in d, so an out-of-range day rolls into the adjacent
months exactly as the ECMAScript MakeDay arithmetic does. -/
def daysFromCivil (y m d : Int) : Int :=
  let yy := if m ≤ 2 then y - 1 else y
  let era := Int.fdiv yy 400
  let yoe := yy - era * 400
  let mp := Int.emod (m + 9) 12
  let doy := Int.fdiv (153 * mp + 2) 5 + d - 1
  let doe := yoe * 365 + Int.fdiv yoe 4 - Int.fdiv yoe 100 + doy
  era * 146097 + doe - 719468

/-- Day number of the civil date given a 0-based month index m0 of
arbitrary sign, normalised into year and month exactly as the Date
constructor and setters of ECMAScript normalise their month argument. -/
def daysFromCivilMonths (y m0 d : Int) : Int :=
  daysFromCivil (y + Int.fdiv m0 12) (Int.emod m0 12 + 1) d

/-- Civil date (year, month 1..12, day) of a day number; the inverse of
daysFromCivil on valid civil dates. -/
def civilFromDays (z : Int) : Int × Int × Int :=
  let zz := z + 719468
  let era := Int.fdiv zz 146097
  let doe := zz - era * 146097
  let yoe :=
    Int.fdiv (doe - Int.fdiv doe 1460 + Int.fdiv doe 36524 - Int.fdiv doe 146096) 365
  let y := yoe + era * 400
  let doy := doe - (365 * yoe + Int.fdiv yoe 4 - Int.fdiv yoe 100)
  let mp := Int.fdiv (5 * doy + 2) 153
  let d := doy - Int.fdiv (153 * mp + 2) 5 + 1
  let m := if mp < 10 then mp + 3 else mp - 9
  (if m ≤ 2 then y + 1 else y, m, d)

/-- 0-based month index of a day number, as Date.prototype.getMonth
returns it for the viewer-local date. -/
def getMonth0 (day : Int) : Int :=
  match civilFromDays day with
  | (_, m, _) => m - 1

/-- Date.prototype.setMonth to 0-based month index t, keeping the
day-of-month and normalising by day-number arithmetic. -/
def setMonthDay (day t : Int) : Int :=
  match civilFromDays day with
  | (y, _, d) => daysFromCivilMonths y t d

/-- Weekday of a day number, 0 = Sunday, as Date.prototype.getDay
returns it (1970-01-01, day number 0, was a Thursday). -/
def dayOfWeek (d : Int) : Int :=
  (d + 4) % 7

/-- The instant (seconds since the epoch, UTC) of local midnight of the
day number given, for a viewer whose local time is UTC plus tz minutes;
this is the instant the local Date constructor new Date(y, m, d)
produces. -/
def localMidnight (tz day : Int) : Int :=
  day * 86400 - tz * 60

/-- The UTC day number of an instant: the date-only portion of
toISOString, modelled as a day number. -/
def utcDayOf (t : Int) : Int :=
  Int.fdiv t 86400

/-- The viewer-local day number of an instant: the date-only portion of
the instant in the viewer's local calendar (the comparison the
specification describes for day placement). -/
def localDayOf (tz t : Int) : Int :=
  Int.fdiv (t + tz * 60) 86400

/-- Numeric value of a decimal digit character. -/
def digitVal (c : Char) : Int :=
  Int.ofNat (c.toNat - 48)

/-- Value of a two-digit decimal field. -/
def digits2 (a b : Char) : Int :=
  10 * digitVal a + digitVal b

/-- Value of a four-digit decimal field. -/
def digits4 (a b c d : Char) : Int :=
  1000 * digitVal a + 100 * digitVal b + 10 * digitVal c + digitVal d

/-- Validation of the YYYY-MM-DD digits of an ISO-8601 date: all eight
characters must be digits and the month and day must be in range, as the
ECMAScript Date string parser requires. -/
def parseYmd (y1 y2 y3 y4 mo1 mo2 d1 d2 : Char) : Option (Int × Int × Int) :=
  if y1.isDigit && y2.isDigit && y3.isDigit && y4.isDigit
      && mo1.isDigit && mo2.isDigit && d1.isDigit && d2.isDigit then
    let y := digits4 y1 y2 y3 y4
    let mo := digits2 mo1 mo2
    let d := digits2 d1 d2
    if 1 ≤ mo ∧ mo ≤ 12 ∧ 1 ≤ d ∧ d ≤ daysInMonth y mo then some (y, mo, d)
    else none
  else none

/-- Validation of the HH:MM[:SS] digits of an ISO-8601 time; the Bool
records whether the Z (UTC) suffix was present. -/
def parseHmsCore (h1 h2 m1 m2 s1 s2 : Char) (z : Bool) :
    Option (Int × Int × Int × Bool) :=
  if h1.isDigit && h2.isDigit && m1.isDigit && m2.isDigit
      && s1.isDigit && s2.isDigit then
    let h := digits2 h1 h2
    let mi := digits2 m1 m2
    let s := digits2 s1 s2
    if h ≤ 23 ∧ mi ≤ 59 ∧ s ≤ 59 then some (h, mi, s, z) else none
  else none

/-- The time part following the T separator: HH:MM, optionally followed
by :SS, optionally followed by Z. -/
def parseHms : List Char → Option (Int × Int × Int × Bool)
  | [h1, h2, ':', m1, m2] => parseHmsCore h1 h2 m1 m2 '0' '0' false
  | [h1, h2, ':', m1, m2, 'Z'] => parseHmsCore h1 h2 m1 m2 '0' '0' true
  | [h1, h2, ':', m1, m2, ':', s1, s2] => parseHmsCore h1 h2 m1 m2 s1 s2 false
  | [h1, h2, ':', m1, m2, ':', s1, s2, 'Z'] => parseHmsCore h1 h2 m1 m2 s1 s2 true
  | _ => none

/-- The ECMAScript Date string parser, modelled for the ISO-8601 forms
the calendar payloads use: a date-only string denotes UTC midnight and a
date-time string denotes local time unless it carries the Z suffix.
Every other string yields an Invalid Date, modelled as none. -/
def parseInstant (tz : Int) (s : String) : Option Int :=
  match s.toList with
  | [y1, y2, y3, y4, '-', mo1, mo2, '-', d1, d2] =>
      match parseYmd y1 y2 y3 y4 mo1 mo2 d1 d2 with
      | some (y, mo, d) => some (86400 * daysFromCivil y mo d)
      | none => none
  | y1 :: y2 :: y3 :: y4 :: '-' :: mo1 :: mo2 :: '-' :: d1 :: d2 :: 'T' :: rest =>
      match parseYmd y1 y2 y3 y4 mo1 mo2 d1 d2, parseHms rest with
      | some (y, mo, d), some (h, mi, sec, z) =>
          let civil := 86400 * daysFromCivil y mo d + 3600 * h + 60 * mi + sec
          some (if z then civil else civil - tz * 60)
      | _, _ => none
  | _ => none

/-- getEventStartDate of the source: the start string is extracted, a
falsy extraction yields null, and otherwise new Date is applied, with an
Invalid Date also yielding null; new Date of the nested start object is
always Invalid because ToPrimitive turns the object into the string
"[object Object]". -/
def getEventStartDate (tz : Int) (e : RawEvent) : Option Int :=
  let s := getEventStartString e
  if s.truthy then
    match s with
    | .str v => parseInstant tz v
    | _ => none
  else none

/-- The canonical view of an event (NormalizedEvent of the
specification, restricted to the three derived fields the claims are
about). -/
structure NormalizedEvent where
  title : String
  link : String
  startInstant : Option Int
deriving Repr, DecidableEq

/-- Normalization as the renderers of the source apply it at read time:
the title and link accessors (their results coerced to strings exactly
as template interpolation coerces them) together with the start-instant
extraction. -/
def normalizeEvent (tz : Int) (e : RawEvent) : NormalizedEvent :=
  { title := jsToString (getEventTitle e)
    link := jsToString (getEventHtmlLink e)
    startInstant := getEventStartDate tz e }

/-- A NormalizedEvent written back as a record, carrying exactly the
canonical field names title, link and startInstant; the accessors of the
source read none of the latter two (they read htmlLink, html_link,
start_datetime and start), which this embedding makes literal. -/
def toRawShaped (n : NormalizedEvent) : RawEvent :=
  { title := .str n.title
    link := .str n.link
    startInstant := n.startInstant }

/-- getEventsForDate of the source: the events whose extracted start
instant exists and whose toISOString date-only portion (the UTC day)
equals that of the Date handed in. -/
def getEventsForDate (tz : Int) (events : List RawEvent) (dateInstant : Int) :
    List RawEvent :=
  events.filter fun e =>
    match getEventStartDate tz e with
    | none => false
    | some d => utcDayOf d == utcDayOf dateInstant

/-- First day (as a day number) of the reference month given by a year
and a 0-based month index, as new Date(year, month, 1) constructs it. -/
def firstOfMonth (y m0 : Int) : Int :=
  daysFromCivilMonths y m0 1

/-- The grid start of the source: the first day of the reference month
shifted backward by its weekday
(startDate.setDate(startDate.getDate() - firstDay.getDay())). -/
def gridStart (y m0 : Int) : Int :=
  firstOfMonth y m0 - dayOfWeek (firstOfMonth y m0)

/-- One rendered day cell of the month grid: its day number, the
other-month and today classifications, its data-date interaction key
(the toISOString date-only portion of the cell's local-midnight Date,
modelled as a UTC day number), the at most two event records shown, and
the +N more overflow label. -/
structure DayCell where
  day : Int
  isCurrentMonth : Bool
  isToday : Bool
  dataDate : Int
  shown : List RawEvent
  overflow : Option Nat
deriving Repr, DecidableEq

/-- The body of the cell loop of generateCalendarDays for one day
number: classification against the reference month index and today,
the data-date key, the first two events of the day and the overflow
count. -/
def buildDayCell (tz year month0 today : Int) (events : List RawEvent)
    (day : Int) : DayCell :=
  let dayEvents := getEventsForDate tz events (localMidnight tz day)
  { day := day
    isCurrentMonth := getMonth0 day == month0
    isToday := day == today
    dataDate := utcDayOf (localMidnight tz day)
    shown := dayEvents.take 2
    overflow :=
      if 2 < dayEvents.length then some (dayEvents.length - 2) else none }

/-- generateCalendarDays of the source: 42 cells built at consecutive
day numbers from the grid start. -/
def generateCalendarDays (tz year month0 today : Int)
    (events : List RawEvent) : List DayCell :=
  (List.range 42).map fun i : Nat =>
    buildDayCell tz year month0 today events (gridStart year month0 + (i : Int))

/-- generateUpcomingEvents of the source, at the level of the event
records rendered: an empty store renders the placeholder (no records);
otherwise the events whose extracted start instant exists and is not
before now, in input order, truncated to the first five. -/
def generateUpcomingEvents (tz : Int) (events : List RawEvent) (now : Int) :
    List RawEvent :=
  if events.length = 0 then []
  else
    (events.filter fun e =>
      match getEventStartDate tz e with
      | none => false
      | some d => decide (now ≤ d)).take 5

/-- The stored authentication status, as the status endpoint returns
it. -/
structure CalendarStatus where
  has_google_access : Bool
  auth_method : String
deriving Repr, DecidableEq

/-- The mutable state of the CalendarManager instance: the current
reference date (at day granularity; no modelled operation reads the time
of day), the stored raw event list, the stored status (null before the
first check) and the loading flag. -/
structure CalendarState where
  currentDate : Int
  events : List RawEvent
  calendarStatus : Option CalendarStatus
  isLoading : Bool
deriving Repr, DecidableEq

/-- The truthiness of this.calendarStatus?.has_google_access. -/
def hasAccess (st : CalendarState) : Bool :=
  (st.calendarStatus.map fun s => s.has_google_access).getD false

/-- The outcome of the status request: a response with its HTTP status
code and parsed body, or a transport error (fetch rejecting). -/
inductive StatusOutcome where
  | response : Nat → CalendarStatus → StatusOutcome
  | transportError : StatusOutcome
deriving Repr, DecidableEq

/-- checkCalendarStatus of the source: a response with response.ok true
(status 200..299) stores its body; any other response and any transport
error store the safe default of no access and traditional
authentication. -/
def checkCalendarStatus (st : CalendarState) (o : StatusOutcome) :
    CalendarState :=
  match o with
  | .response code body =>
      if 200 ≤ code ∧ code ≤ 299 then { st with calendarStatus := some body }
      else
        { st with
          calendarStatus :=
            some { has_google_access := false, auth_method := "traditional" } }
  | .transportError =>
      { st with
        calendarStatus :=
          some { has_google_access := false, auth_method := "traditional" } }

/-- Severity of a user-visible notification. -/
inductive Severity where
  | info : Severity
  | success : Severity
  | error : Severity
deriving Repr, DecidableEq

/-- A user-visible notification as showNotification emits it. -/
structure UserNote where
  text : String
  severity : Severity
deriving Repr, DecidableEq

/-- The outcome of the events request: a 2xx response whose body may or
may not carry an events array, a 403 response with the error member of
its body, any other non-2xx response (the source throws and lands in its
own catch), or a transport error. -/
inductive FetchOutcome where
  | ok : Option (List RawEvent) → FetchOutcome
  | denied : JSVal → FetchOutcome
  | httpError : FetchOutcome
  | transportError : FetchOutcome
deriving Repr, DecidableEq

/-- The try block of fetchCalendarEvents after the loading flag is
raised: a 2xx response replaces the stored events with data.events or
the empty array and emits the success notification; a 403 response emits
the error member of the body when truthy and the default access-denied
text otherwise, returns the empty array, and assigns nothing to the
stored events; every other failure is caught and emits the generic
error notification, also leaving the stored events unassigned. -/
def fetchTryBody (st : CalendarState) (o : FetchOutcome) :
    CalendarState × List RawEvent × Option UserNote :=
  match o with
  | .ok evs =>
      let newEvents := evs.getD []
      ({ st with events := newEvents }, newEvents,
        some { text := "Calendar events updated", severity := .success })
  | .denied errField =>
      (st, [],
        some
          { text := jsToString (jsOr errField (.str "Calendar access denied"))
            severity := .error })
  | .httpError =>
      (st, [],
        some { text := "Failed to load calendar events", severity := .error })
  | .transportError =>
      (st, [],
        some { text := "Failed to load calendar events", severity := .error })

/-- fetchCalendarEvents of the source: a no-op returning the empty array
without access; otherwise the loading flag is raised, the try block
runs, and the finally block lowers the loading flag on every exit
path. -/
def fetchCalendarEvents (st : CalendarState) (o : FetchOutcome) :
    CalendarState × List RawEvent × Option UserNote :=
  if hasAccess st then
    let st1 := { st with isLoading := true }
    let r := fetchTryBody st1 o
    ({ r.1 with isLoading := false }, r.2.1, r.2.2)
  else (st, [], none)

/-- What a render pass did: whether it issued an event fetch, and the
notification that fetch emitted. -/
structure RenderEffect where
  fetched : Bool
  note : Option UserNote
deriving Repr, DecidableEq

/-- renderCalendar of the source, at the state level: when
this.calendarStatus?.has_google_access is truthy the render awaits
fetchCalendarEvents before writing the markup; otherwise no fetch is
issued. -/
def renderCalendar (st : CalendarState) (o : FetchOutcome) :
    CalendarState × RenderEffect :=
  if hasAccess st then
    let r := fetchCalendarEvents st o
    (r.1, { fetched := true, note := r.2.2 })
  else (st, { fetched := false, note := none })

/-- navigateMonth of the source:
this.currentDate.setMonth(this.currentDate.getMonth() + direction)
followed by a full renderCalendar. -/
def navigateMonth (st : CalendarState) (direction : Int) (o : FetchOutcome) :
    CalendarState × RenderEffect :=
  let st1 :=
    { st with
      currentDate := setMonthDay st.currentDate (getMonth0 st.currentDate + direction) }
  renderCalendar st1 o

/-- The event of the access-granted scenario of the specification,
carrying its start only in the nested dateTime member. -/
def evNestedStart : RawEvent :=
  { summary := .str "Advising"
    start := .startObj (.str "2025-03-10T15:00:00Z") .undefined }

/-- An event carrying its start as a server-normalized primitive
start_datetime string. -/
def evNoon : RawEvent :=
  { summary := .str "Advising"
    start_datetime := .str "1970-01-01T12:00:00Z" }

/-- An already-normalized event with a non-empty link and a parsed start
instant, produced from a server-normalized record. -/
def evServerShaped : RawEvent :=
  { summary := .str "Advising"
    html_link := .str "https://calendar.example/e1"
    start_datetime := .str "1970-01-02T00:00:00Z" }

/-- An event whose summary is present but empty. -/
def evEmptySummary : RawEvent :=
  { summary := .str ""
    title := .str "Advising" }

/-- A stored event representing the result of an earlier successful
fetch. -/
def evOld : RawEvent :=
  { summary := .str "Old meeting"
    start_datetime := .str "1970-01-01T12:00:00Z" }

/-- A freshly fetched event. -/
def evNew : RawEvent :=
  { summary := .str "New meeting"
    start_datetime := .str "1970-01-03T12:00:00Z" }

/-- A rendered state on 2025-01-31 with provider access granted and an
empty stored event list. -/
def stJan31 : CalendarState :=
  { currentDate := daysFromCivil 2025 1 31
    events := []
    calendarStatus := some { has_google_access := true, auth_method := "google" }
    isLoading := false }

/-- A rendered state with provider access granted and one stored event
from an earlier fetch. -/
def stWithOld : CalendarState :=
  { currentDate := 0
    events := [evOld]
    calendarStatus := some { has_google_access := true, auth_method := "google" }
    isLoading := false }

/-- An event record with every field absent. -/
def evEmpty : RawEvent := {}

/-- The title accessor always yields a truthy value: the final
alternative of its OR chain is the non-empty literal. -/
theorem getEventTitle_truthy (e : RawEvent) : (getEventTitle e).truthy = true := by
  unfold getEventTitle jsOr
  by_cases h1 : e.summary.truthy = true
  · rw [if_pos h1]; exact h1
  · rw [if_neg h1]
    by_cases h2 : e.title.truthy = true
    · rw [if_pos h2]; exact h2
    · rw [if_neg h2]; rfl

/-- String coercion of a truthy value is never the empty string. -/
theorem jsToString_ne_empty_of_truthy (v : JSVal) (h : v.truthy = true) :
    jsToString v ≠ "" := by
  cases v <;> simp_all [JSVal.truthy, jsToString]

/-- The day field of a built cell is the day number it was built at. -/
theorem buildDayCell_day (tz year month0 today : Int) (events : List RawEvent)
    (day : Int) : (buildDayCell tz year month0 today events day).day = day := rfl

/-- Normalizing a canonically-shaped record whose title is non-empty
keeps the title, collapses the link to the empty string and the start
instant to null, since none of the raw field names the accessors read is
populated apart from title. -/
theorem normalize_toRawShaped (tz : Int) (n : NormalizedEvent)
    (hn : n.title ≠ "") :
    normalizeEvent tz (toRawShaped n)
      = { title := n.title, link := "", startInstant := none } := by
  simp [normalizeEvent, toRawShaped, getEventTitle, getEventHtmlLink,
    getEventStartDate, getEventStartString, jsOr, JSVal.truthy,
    JSVal.dtMember, JSVal.dateMember, jsToString, hn]

/-- C1.  The claim fails on the code: when the start field is the nested
object, the OR chain of getEventStartString short-circuits on the truthy
object itself, so the branches reading the nested dateTime and date
members are unreachable and the extraction returns the object, not the
string.  New Date of the object is Invalid, so the start instant is
null and the event is excluded from the upcoming list and from its day
cell, although the very same string parses to an instant when it is
carried in start_datetime (the specification's own access-granted
scenario expects the nested-dateTime event to be placed). -/
theorem c1_nested_start_unreachable :
    getEventStartString evNestedStart
        = .startObj (.str "2025-03-10T15:00:00Z") .undefined
    ∧ getEventStartDate 0 evNestedStart = none
    ∧ parseInstant 0 "2025-03-10T15:00:00Z" = some 1741618800
    ∧ getEventStartDate 0 { start_datetime := .str "2025-03-10T15:00:00Z" }
        = some 1741618800
    ∧ generateUpcomingEvents 0 [evNestedStart] 0 = []
    ∧ getEventsForDate 0 [evNestedStart]
        (localMidnight 0 (daysFromCivil 2025 3 10)) = [] := by
  decide

/-- C2.  For every reference month the grid builder emits exactly 42
cells at consecutive day numbers, starting from the first day of the
reference month shifted backward to the preceding or same Sunday. -/
theorem c2_month_grid (tz year month0 today : Int) (events : List RawEvent) :
    (generateCalendarDays tz year month0 today events).length = 42
    ∧ (generateCalendarDays tz year month0 today events).map (fun c => c.day)
        = (List.range 42).map (fun i : Nat => gridStart year month0 + (i : Int))
    ∧ dayOfWeek (gridStart year month0) = 0
    ∧ gridStart year month0 ≤ firstOfMonth year month0
    ∧ firstOfMonth year month0 - gridStart year month0 ≤ 6 := by
  have hmap : (generateCalendarDays tz year month0 today events).map (fun c => c.day)
      = (List.range 42).map (fun i : Nat => gridStart year month0 + (i : Int)) := by
    simp only [generateCalendarDays, List.map_map, Function.comp_def,
      buildDayCell_day]
  have hlen : (generateCalendarDays tz year month0 today events).length = 42 := by
    have h := congrArg List.length hmap
    rwa [List.length_map, List.length_map, List.length_range] at h
  refine ⟨hlen, hmap, ?_, ?_, ?_⟩
  · simp only [gridStart, dayOfWeek]
    omega
  · simp only [gridStart, dayOfWeek]
    omega
  · simp only [gridStart, dayOfWeek]
    omega

/-- Witness for C2 at February of the leap year 2024 and of the non-leap
year 2025. -/
theorem c2_month_grid_witness :
    (generateCalendarDays 0 2024 1 0 []).length = 42
    ∧ (generateCalendarDays 0 2025 1 0 []).length = 42 :=
  ⟨(c2_month_grid 0 2024 1 0 []).1, (c2_month_grid 0 2025 1 0 []).1⟩

/-- C3.  The upcoming-list builder keeps exactly the events whose
extracted start instant exists and is not before now, preserves the
input order (the result is a sublist of the input), and truncates to the
first five entries. -/
theorem c3_upcoming_list (tz now : Int) (events : List RawEvent) :
    (generateUpcomingEvents tz events now).length ≤ 5
    ∧ List.Sublist (generateUpcomingEvents tz events now) events
    ∧ (∀ e, e ∈ generateUpcomingEvents tz events now →
        ∃ d, getEventStartDate tz e = some d ∧ now ≤ d)
    ∧ generateUpcomingEvents tz events now
        = (events.filter fun e =>
            match getEventStartDate tz e with
            | none => false
            | some d => decide (now ≤ d)).take 5 := by
  have heq : generateUpcomingEvents tz events now
      = (events.filter fun e =>
          match getEventStartDate tz e with
          | none => false
          | some d => decide (now ≤ d)).take 5 := by
    cases events with
    | nil => simp [generateUpcomingEvents]
    | cons a l => simp [generateUpcomingEvents]
  refine ⟨?_, ?_, ?_, heq⟩
  · rw [heq, List.length_take]
    exact min_le_left 5 _
  · rw [heq]
    exact (List.take_sublist _ _).trans (List.filter_sublist _)
  · intro e he
    rw [heq] at he
    have h1 := List.mem_of_mem_take he
    rw [List.mem_filter] at h1
    have hp := h1.2
    cases hd : getEventStartDate tz e with
    | none => rw [hd] at hp; simp at hp
    | some d =>
        rw [hd] at hp
        exact ⟨d, rfl, of_decide_eq_true hp⟩

/-- Witness for C3: a concrete two-event store in which both events are
upcoming. -/
theorem c3_upcoming_list_witness :
    (generateUpcomingEvents 0 [evOld, evNew] 0).length ≤ 5
    ∧ ∃ d, getEventStartDate 0 evNew = some d ∧ (0 : Int) ≤ d :=
  ⟨(c3_upcoming_list 0 0 [evOld, evNew]).1,
    (c3_upcoming_list 0 0 [evOld, evNew]).2.2.1 evNew (by decide)⟩

/-- Counterexample to C4 as stated: for a viewer at UTC+1 (tz = 60), the
event starting at noon UTC of day 0 (1970-01-01) is attached to the cell
whose calendar date is day 1 (1970-01-02), although the date-only
portion of its start instant in the viewer's local calendar is day 0,
not day 1 — the source compares the UTC date strings produced by
toISOString, not viewer-local dates, so the claimed equivalence fails. -/
theorem c4_local_date_cex :
    (buildDayCell 60 1970 0 0 [evNoon] 1).shown = [evNoon]
    ∧ getEventStartDate 60 evNoon = some 43200
    ∧ localDayOf 60 43200 = 0
    ∧ (0 : Int) ≠ 1 := by
  decide

/-- C4 (amended).  An event is attached to a cell exactly when its
extracted start instant exists and its UTC date-only portion equals the
UTC date-only portion of the cell's local-midnight instant; the cell
shows at most two of those events (the first two, in store order) and an
overflow label counting the remainder exactly when more than two
exist. -/
theorem c4_day_attachment :
    (∀ (tz : Int) (events : List RawEvent) (t : Int) (e : RawEvent),
        e ∈ getEventsForDate tz events t
          ↔ e ∈ events
            ∧ ∃ d, getEventStartDate tz e = some d ∧ utcDayOf d = utcDayOf t)
    ∧ (∀ (tz year month0 today : Int) (events : List RawEvent) (day : Int),
        (buildDayCell tz year month0 today events day).shown
            = (getEventsForDate tz events (localMidnight tz day)).take 2
        ∧ (buildDayCell tz year month0 today events day).shown.length ≤ 2
        ∧ (buildDayCell tz year month0 today events day).overflow
            = if 2 < (getEventsForDate tz events (localMidnight tz day)).length
              then some ((getEventsForDate tz events (localMidnight tz day)).length - 2)
              else none) := by
  constructor
  · intro tz events t e
    rw [getEventsForDate, List.mem_filter]
    constructor
    · rintro ⟨hm, hp⟩
      refine ⟨hm, ?_⟩
      cases hd : getEventStartDate tz e with
      | none => rw [hd] at hp; simp at hp
      | some d =>
          rw [hd] at hp
          exact ⟨d, rfl, by simpa using hp⟩
    · rintro ⟨hm, d, hd, he⟩
      refine ⟨hm, ?_⟩
      rw [hd]
      simpa using he
  · intro tz year month0 today events day
    refine ⟨rfl, ?_, rfl⟩
    show ((getEventsForDate tz events (localMidnight tz day)).take 2).length ≤ 2
    rw [List.length_take]
    exact min_le_left 2 _

/-- Witness for C4 at a concrete store: the noon event of day 0 is
attached to the day-1 cell of the UTC+1 viewer through the UTC-date
characterisation. -/
theorem c4_day_attachment_witness :
    evNoon ∈ getEventsForDate 60 [evNoon] (localMidnight 60 1) :=
  (c4_day_attachment.1 60 [evNoon] (localMidnight 60 1) evNoon).mpr
    ⟨by decide, 43200, by decide, by decide⟩

/-- Counterexample to C5 as stated: navigating one month forward from
2025-01-31 (reference month January, index 0) lands the reference month
on March (index 2, a two-month jump: setMonth keeps day-of-month 31,
which overflows February), and the navigation issues a fetch whose
response replaces the stored event list. -/
theorem c5_navigation_cex :
    getMonth0 stJan31.currentDate = 0
    ∧ getMonth0 (navigateMonth stJan31 1 (.ok (some [evNew]))).1.currentDate = 2
    ∧ (navigateMonth stJan31 1 (.ok (some [evNew]))).2.fetched = true
    ∧ (navigateMonth stJan31 1 (.ok (some [evNew]))).1.events ≠ stJan31.events := by
  decide

/-- C5 (amended).  Navigation moves the current date to the same
day-of-month of the month index shifted by the direction, normalised by
day-number arithmetic (so a day-of-month absent from the target month
overflows into the following month), and re-renders: when provider
access is granted the re-render issues an event fetch (a successful
response replaces the stored event list); when access is not granted no
fetch is issued and the stored event list and notifications are
untouched. -/
theorem c5_navigation (st : CalendarState) (direction : Int) (o : FetchOutcome) :
    (navigateMonth st direction o).1.currentDate
        = setMonthDay st.currentDate (getMonth0 st.currentDate + direction)
    ∧ (navigateMonth st direction o).2.fetched = hasAccess st
    ∧ (hasAccess st = false →
        (navigateMonth st direction o).1.events = st.events
        ∧ (navigateMonth st direction o).2.note = none)
    ∧ (∀ evs, hasAccess st = true → o = .ok (some evs) →
        (navigateMonth st direction o).1.events = evs) := by
  have hacc : hasAccess
      { st with
        currentDate := setMonthDay st.currentDate (getMonth0 st.currentDate + direction) }
      = hasAccess st := rfl
  by_cases h : hasAccess st = true
  · refine ⟨?_, ?_, ?_, ?_⟩
    · cases o <;>
        simp [navigateMonth, renderCalendar, fetchCalendarEvents, fetchTryBody,
          hacc, h]
    · cases o <;>
        simp [navigateMonth, renderCalendar, fetchCalendarEvents, fetchTryBody,
          hacc, h]
    · intro hf
      rw [h] at hf
      exact absurd hf (by simp)
    · rintro evs - rfl
      simp [navigateMonth, renderCalendar, fetchCalendarEvents, fetchTryBody,
        hacc, h]
  · have hf : hasAccess st = false := by
      cases hv : hasAccess st
      · rfl
      · exact absurd hv h
    refine ⟨?_, ?_, ?_, ?_⟩
    · simp [navigateMonth, renderCalendar, hacc, hf]
    · simp [navigateMonth, renderCalendar, hacc, hf]
    · intro hfalse
      constructor <;> simp [navigateMonth, renderCalendar, hacc, hf]
    · rintro evs hv hvo
      exact absurd hv (by rw [hf]; simp)

/-- Witness for C5: from the concrete rendered state on 2025-01-31 with
access granted, a successful navigation-triggered fetch replaces the
stored event list with the response. -/
theorem c5_navigation_witness :
    (navigateMonth stJan31 1 (.ok (some [evNew]))).1.events = [evNew] :=
  (c5_navigation stJan31 1 (.ok (some [evNew]))).2.2.2 [evNew] (by decide) rfl

/-- Counterexample to C6 as stated: a 403 response arriving while one
event from an earlier fetch is stored leaves that event stored — the
403 branch of the source returns an empty array but never assigns the
stored list — so the stored event list is not empty afterward. -/
theorem c6_denied_fetch_cex :
    (fetchCalendarEvents stWithOld (.denied (.str "Access revoked"))).1.events
        = [evOld]
    ∧ (fetchCalendarEvents stWithOld (.denied (.str "Access revoked"))).1.events
        ≠ []
    ∧ (fetchCalendarEvents stWithOld (.denied (.str "Access revoked"))).2.2
        = some { text := "Access revoked", severity := .error } := by
  decide

/-- C6 (amended).  On an access-denied (HTTP 403) response the fetcher
emits the server-supplied error message when it is truthy and the
default text otherwise as an error notification, returns an empty list,
leaves the stored event list unchanged (in particular still empty when
it was empty before), resets the loading flag, and does not throw (the
transition is total). -/
theorem c6_denied_fetch (st : CalendarState) (v : JSVal)
    (h : hasAccess st = true) :
    (fetchCalendarEvents st (.denied v)).1.events = st.events
    ∧ (fetchCalendarEvents st (.denied v)).2.1 = []
    ∧ (fetchCalendarEvents st (.denied v)).2.2
        = some { text := jsToString (jsOr v (.str "Calendar access denied"))
                 severity := .error }
    ∧ (∀ s, v = .str s → s ≠ "" →
        (fetchCalendarEvents st (.denied v)).2.2
          = some { text := s, severity := .error })
    ∧ (v = .undefined →
        (fetchCalendarEvents st (.denied v)).2.2
          = some { text := "Calendar access denied", severity := .error })
    ∧ (fetchCalendarEvents st (.denied v)).1.isLoading = false := by
  refine ⟨?_, ?_, ?_, ?_, ?_, ?_⟩
  · simp [fetchCalendarEvents, fetchTryBody, h]
  · simp [fetchCalendarEvents, fetchTryBody, h]
  · simp [fetchCalendarEvents, fetchTryBody, h]
  · rintro s rfl hs
    simp [fetchCalendarEvents, fetchTryBody, h, jsOr, JSVal.truthy, jsToString, hs]
  · rintro rfl
    simp [fetchCalendarEvents, fetchTryBody, h, jsOr, JSVal.truthy, jsToString]
  · simp [fetchCalendarEvents, fetchTryBody, h]

/-- Witness for C6 at the concrete state holding one stored event:
the stored list survives the 403 and the loading flag is lowered. -/
theorem c6_denied_fetch_witness :
    (fetchCalendarEvents stWithOld (.denied (.str "Access revoked"))).1.events
        = stWithOld.events
    ∧ (fetchCalendarEvents stWithOld (.denied (.str "Access revoked"))).1.isLoading
        = false :=
  ⟨(c6_denied_fetch stWithOld (.str "Access revoked") rfl).1,
    (c6_denied_fetch stWithOld (.str "Access revoked") rfl).2.2.2.2.2⟩

/-- C7.  The status check never leaves the stored status null, and on
every outcome other than a 2xx response (any non-2xx code, and any
transport error) it stores exactly the safe default of no provider
access and traditional authentication. -/
theorem c7_status_gate (st : CalendarState) (o : StatusOutcome) :
    (checkCalendarStatus st o).calendarStatus ≠ none
    ∧ ((∀ code body, o = .response code body → code < 200 ∨ 300 ≤ code) →
        (checkCalendarStatus st o).calendarStatus
          = some { has_google_access := false, auth_method := "traditional" }) := by
  cases o with
  | response code body =>
      constructor
      · by_cases h2 : 200 ≤ code ∧ code ≤ 299 <;> simp [checkCalendarStatus, h2]
      · intro h
        have hcb := h code body rfl
        have hn : ¬(200 ≤ code ∧ code ≤ 299) := by omega
        simp [checkCalendarStatus, hn]
  | transportError =>
      exact ⟨by simp [checkCalendarStatus], fun _ => by simp [checkCalendarStatus]⟩

/-- Witness for C7 at a concrete 403 status response: the parsed body is
discarded and the safe default is stored. -/
theorem c7_status_gate_witness :
    (checkCalendarStatus stWithOld
        (.response 403 { has_google_access := true, auth_method := "google" })).calendarStatus
      = some { has_google_access := false, auth_method := "traditional" } :=
  (c7_status_gate stWithOld
      (.response 403 { has_google_access := true, auth_method := "google" })).2
    (by
      intro code body hcb
      cases hcb
      omega)

/-- Counterexample to C8 as stated: normalizing the NormalizedEvent-shaped
record carrying the normalized values of a server-shaped event (title
"Advising", a non-empty link and a parsed start instant) does not yield
those values back — the accessors read only the raw field names, so the
link collapses to the empty string and the start instant to null. -/
theorem c8_renormalization_cex :
    normalizeEvent 0 (toRawShaped (normalizeEvent 0 evServerShaped))
      ≠ normalizeEvent 0 evServerShaped
    ∧ (normalizeEvent 0 evServerShaped).link ≠ ""
    ∧ (normalizeEvent 0 evServerShaped).startInstant ≠ none := by
  decide

/-- C8 (amended).  Renormalizing a NormalizedEvent-shaped input
preserves the title but collapses the link to the empty string and the
start instant to null, because the accessors read only the raw field
names (summary/title, htmlLink/html_link, start_datetime/start);
normalization is therefore idempotent on exactly those normalized events
whose link is empty and whose start instant is null. -/
theorem c8_renormalization (tz tz2 : Int) (e : RawEvent) :
    normalizeEvent tz (toRawShaped (normalizeEvent tz2 e))
        = { title := (normalizeEvent tz2 e).title, link := "", startInstant := none }
    ∧ (normalizeEvent tz (toRawShaped (normalizeEvent tz2 e)) = normalizeEvent tz2 e
        ↔ (normalizeEvent tz2 e).link = ""
          ∧ (normalizeEvent tz2 e).startInstant = none) := by
  have ht : (normalizeEvent tz2 e).title ≠ "" :=
    jsToString_ne_empty_of_truthy _ (getEventTitle_truthy e)
  have h1 := normalize_toRawShaped tz (normalizeEvent tz2 e) ht
  refine ⟨h1, ?_⟩
  rw [h1]
  constructor
  · intro he
    rw [← he]
    exact ⟨rfl, rfl⟩
  · rintro ⟨hl, hs⟩
    rw [← hl, ← hs]

/-- Witness for C8 at the concrete server-shaped event. -/
theorem c8_renormalization_witness :
    normalizeEvent 0 (toRawShaped (normalizeEvent 0 evServerShaped))
      = { title := (normalizeEvent 0 evServerShaped).title, link := "",
          startInstant := none } :=
  (c8_renormalization 0 0 evServerShaped).1

/-- Counterexample to C9 as stated: an event whose summary is present
(the empty string) but whose title is "Advising" makes the accessor
return the title, not the present summary — the OR chain of the source
tests truthiness, not presence, so an empty summary is skipped. -/
theorem c9_title_accessor_cex :
    evEmptySummary.summary = .str ""
    ∧ getEventTitle evEmptySummary = .str "Advising"
    ∧ getEventTitle evEmptySummary ≠ evEmptySummary.summary := by
  decide

/-- C9 (amended).  The title accessor returns the summary field when it
is truthy (present and non-empty), else the title field when it is
truthy, else the literal "No Title"; when both fields are absent it
returns "No Title", and it never returns undefined or null. -/
theorem c9_title_accessor (e : RawEvent) :
    getEventTitle e
        = (if e.summary.truthy then e.summary
           else if e.title.truthy then e.title else .str "No Title")
    ∧ getEventTitle e ≠ .undefined
    ∧ getEventTitle e ≠ .nul
    ∧ (e.summary = .undefined → e.title = .undefined →
        getEventTitle e = .str "No Title") := by
  refine ⟨rfl, ?_, ?_, ?_⟩
  · intro hc
    have h := getEventTitle_truthy e
    rw [hc] at h
    exact absurd h (by simp [JSVal.truthy])
  · intro hc
    have h := getEventTitle_truthy e
    rw [hc] at h
    exact absurd h (by simp [JSVal.truthy])
  · intro h1 h2
    simp [getEventTitle, h1, h2, jsOr, JSVal.truthy]

/-- Witness for C9 at the record with both fields absent. -/
theorem c9_title_accessor_witness :
    getEventTitle evEmpty = .str "No Title" :=
  (c9_title_accessor evEmpty).2.2.2 rfl rfl

/-- C10.  Whenever provider access is granted (the only case in which
the fetch raises the loading flag), the loading flag is false again
after the fetch on every outcome: successful replace, access-denied
response, other non-2xx response, and transport error alike. -/
theorem c10_loading_released (st : CalendarState) (o : FetchOutcome)
    (h : hasAccess st = true) :
    (fetchCalendarEvents st o).1.isLoading = false := by
  cases o <;> simp [fetchCalendarEvents, fetchTryBody, h]

/-- Witness for C10 at the concrete stored state and a non-2xx
outcome. -/
theorem c10_loading_released_witness :
    (fetchCalendarEvents stWithOld .httpError).1.isLoading = false :=
  c10_loading_released stWithOld .httpError rfl
